import Mathlib

/-!
Shallow embedding of the credential/session/token subsystem of the
vendoor_express backend (src/app/core/security.py, src/app/core/utils.py,
src/app/crud/token.py, src/app/crud/session.py, src/app/crud/user.py,
src/app/api/auth.py, src/app/dependencies.py), together with theorems
settling the spec claims about it.

Modelling conventions:
* UUIDs (user ids, token jti values, session ids) are opaque values compared
  only for equality in the source; they are modelled as `Nat`.  Freshness of
  `uuid.uuid4()` is modelled by a counter `nextFresh` carried in the store
  state: each generated identifier is the current counter value.
* Timestamps are `Int` (seconds); `datetime.now(UTC)` is an explicit `now`
  argument threaded into every function that reads the clock.
* The database session is the explicit `DB` state; SQLAlchemy
  `select/update/delete` statements become `List` lookups and maps.
* bcrypt via passlib is modelled ideally: a digest is either the hash of a
  definite plaintext or a malformed string.  Per passlib's documented
  contract, `CryptContext.verify` raises `UnknownHashError` when the digest
  cannot be identified as any configured scheme; it never merely returns
  false in that case.
* A JWT is either a payload correctly signed with the process secret or a
  forged/garbage string; `jwt.decode` verifies the signature and the `exp`
  claim (leeway 0) and raises `ExpiredSignatureError`/`InvalidTokenError`
  accordingly, both subclasses of `PyJWTError`.
* Python exceptions become `Except` errors; exact HTTP detail strings are
  represented by constructors of `Detail`, one per distinct message template
  in the source (distinct constructors correspond to distinct strings).
-/

deriving instance DecidableEq for Except

namespace Vendoor

/-- Token kinds, from `TokenType` in src/app/db/enums.py
    (ACCESS = "access", REFRESH = "refresh", RESET = "reset"). -/
inductive TokenType where
  | access
  | refresh
  | reset
deriving DecidableEq

/-- A `sub` claim value is a Python string: either the string form of a UUID
    (which `uuid.UUID` parses back to that UUID) or a string that fails to
    parse.  Modelled as this sum, a faithful partition of strings by
    parseability. -/
inductive SubClaim where
  | uuidSub (uid : Nat)
  | rawSub (s : String)
deriving DecidableEq

/-- Python stdlib `uuid.UUID(s)`: succeeds exactly on well-formed UUID
    strings.  (On failure the constructor raises `ValueError`; callers below
    turn `none` into that exception.) -/
def parseUUID : SubClaim → Option Nat
  | .uuidSub uid => some uid
  | .rawSub _ => none

/-- The claims dictionary of a JWT as built and read by the source:
    `sub` and `jti` are read with `payload.get`, hence optional; `exp` is
    always set by `create_token`. -/
structure Payload where
  sub : Option SubClaim
  jti : Option Nat
  exp : Int
deriving DecidableEq

/-- A JWT string: either signed with the process-wide secret (in which case
    `jwt.decode` recovers its payload) or anything else. -/
inductive Jwt where
  | signed (p : Payload)
  | forged (s : String)
deriving DecidableEq

/-- The distinct client-facing message templates occurring in the modelled
    source.  Each constructor stands for one distinct Python string:
    * `userWithEmailDoesNotExist e` — "User with email (e) does not exist."
    * `passwordIncorrect` — "Password is incorrect."
    * `couldNotValidateCredentials` — "Could not validate credentials"
    * `couldNotValidateCredentialsTokenExpired` —
      "Could not validate credentials, token expired"
    * `userNotFoundSessionDeleted` — the 404 message of `get_current_user`
    * `userCurrentlyInactive` — "This user is currently inactive"
    * `invalidTokenMsg` — the "Invalid token" argument of the `PyJWTError`
      raised by `refresh_access_token`. -/
inductive Detail where
  | userWithEmailDoesNotExist (email : String)
  | passwordIncorrect
  | couldNotValidateCredentials
  | couldNotValidateCredentialsTokenExpired
  | userNotFoundSessionDeleted
  | userCurrentlyInactive
  | invalidTokenMsg
deriving DecidableEq

/-- Python exceptions escaping the modelled functions. -/
inductive PyExn where
  /-- `jwt.PyJWTError` (or a subclass); `msg` is its message if any. -/
  | pyJwtError (msg : Option Detail)
  /-- `ValueError`/`TypeError` from `uuid.UUID` on an unparseable subject. -/
  | valueError
  /-- passlib `UnknownHashError` on a digest of unknown format. -/
  | unknownHashError
  /-- `fastapi.HTTPException(status_code, detail)`. -/
  | http (status : Nat) (detail : Detail)
deriving DecidableEq

/-- A bcrypt digest: either the (salted, idealized collision-free) hash of a
    definite plaintext, or a string that is not a well-formed bcrypt hash. -/
inductive Digest where
  | good (pw : String)
  | malformed (s : String)
deriving DecidableEq

/-- passlib `CryptContext(schemes=["bcrypt"]).verify` (src/app/core/config.py
    line 49): compares the plaintext against a well-formed digest, and raises
    `UnknownHashError` if the digest is not recognisable as bcrypt — per
    passlib's documented contract for `CryptContext.verify`. -/
def passlibVerify (plain : String) : Digest → Except PyExn Bool
  | .good pw => .ok (plain == pw)
  | .malformed _ => .error .unknownHashError

/-- `verify_password` (src/app/core/security.py lines 17-24): a bare
    delegation to `password_context.verify` with no exception handling. -/
def verify_password (plain_password : String) (hashed_password : Digest) :
    Except PyExn Bool :=
  passlibVerify plain_password hashed_password

/-- `hash_password` (src/app/core/security.py lines 27-33). -/
def hash_password (password : String) : Digest :=
  .good password

/-- `jwt.decode(token, secret_key, algorithms=[algorithm])`: signature check
    plus `exp` validation with zero leeway.  Expired and malformed tokens
    raise subclasses of `PyJWTError`, distinguished here because
    `reset_password` catches them separately. -/
inductive JwtDecodeError where
  | invalidToken
  | expiredSignature
deriving DecidableEq

def jwtDecode (token : Jwt) (now : Int) : Except JwtDecodeError Payload :=
  match token with
  | .forged _ => .error .invalidToken
  | .signed p => if p.exp ≤ now then .error .expiredSignature else .ok p

/-- `verify_token` (src/app/core/security.py lines 36-50).  Decodes the
    token; raises the caller-supplied `credentials_exception` on any
    `PyJWTError` and on a missing `jti`/`sub`; the `uuid.UUID(user_id)`
    conversion of an unparseable subject raises `ValueError`, which the
    `except jwt.PyJWTError` clause does not catch. -/
def verify_token (token : Jwt) (now : Int) (credentials_exception : PyExn) :
    Except PyExn (Nat × Nat) :=
  match jwtDecode token now with
  | .error _ => .error credentials_exception
  | .ok payload =>
    match payload.jti, payload.sub with
    | some jti, some sub =>
      match parseUUID sub with
      | some user_id => .ok (user_id, jti)
      | none => .error .valueError
    | some _, none => .error credentials_exception
    | none, _ => .error credentials_exception

/-- A row of the token table, as created by `store_token`
    (src/app/crud/token.py lines 17-35).  The `Token` model class itself is
    absent from src/; its columns are modelled from the spec's Credential
    record and from the keyword arguments `store_token` passes to it. -/
structure TokenRow where
  jti : Nat
  user_id : Nat
  token_type : TokenType
  expires_at : Int
  is_active : Bool
deriving DecidableEq

/-- A row of the sessions table, `SessionData` in src/app/db/models.py lines
    36-45.  The `user_id` column holds `str(user.id)`; since `str` is
    injective on UUIDs and the column is only compared for equality, it is
    modelled as the id itself. -/
structure SessionRow where
  id : Nat
  user_id : Nat
  user_agent : Option String
  ip_address : Option String
  expires_at : Int
deriving DecidableEq

/-- The columns of the `User` model (src/app/db/models.py lines 48-74) that
    the credential subsystem reads or writes. -/
structure UserRow where
  id : Nat
  email : String
  hashed_password : Digest
  is_active : Bool
  is_first_login : Option Bool
deriving DecidableEq

/-- The relational store plus the fresh-identifier source: `nextFresh`
    models `uuid.uuid4()` freshness (each draw returns the counter and
    increments it). -/
structure DB where
  users : List UserRow
  tokens : List TokenRow
  sessions : List SessionRow
  nextFresh : Nat
deriving DecidableEq

/-- `get_user` (src/app/crud/user.py lines 14-15):
    `select(User).filter_by(id=user_id)`, `scalar_one_or_none`. -/
def get_user (db : DB) (user_id : Nat) : Option UserRow :=
  db.users.find? (fun u => u.id == user_id)

/-- `get_user_by_email` (src/app/crud/user.py lines 18-19). -/
def get_user_by_email (db : DB) (email : String) : Option UserRow :=
  db.users.find? (fun u => u.email == email)

/-- `update_user` (src/app/crud/user.py lines 22-30): an UPDATE of the given
    columns on every row with the user's id.  `f` sets exactly the columns
    passed as keyword arguments at the call site. -/
def update_user (db : DB) (user : UserRow) (f : UserRow → UserRow) : DB :=
  { db with users := db.users.map (fun u => if u.id == user.id then f u else u) }

/-- `store_token` (src/app/crud/token.py lines 17-35): INSERT of a fresh
    active row. -/
def store_token (db : DB) (user_id : Nat) (token_jti : Nat)
    (token_type : TokenType) (expires_at : Int) : TokenRow × DB :=
  let row : TokenRow :=
    { jti := token_jti, user_id := user_id, token_type := token_type,
      expires_at := expires_at, is_active := true }
  (row, { db with tokens := db.tokens ++ [row] })

/-- `get_token` (src/app/crud/token.py lines 104-105): lookup by `jti`
    alone. -/
def get_token (db : DB) (token_jti : Nat) : Option TokenRow :=
  db.tokens.find? (fun t => t.jti == token_jti)

/-- `invalidate_token` (src/app/crud/token.py lines 84-90): UPDATE
    `is_active=False` on rows matching BOTH `jti` and `token_type`. -/
def invalidate_token (db : DB) (token_type : TokenType) (token_jti : Nat) : DB :=
  { db with tokens := db.tokens.map (fun t =>
      if t.jti = token_jti ∧ t.token_type = token_type then
        { t with is_active := false } else t) }

/-- `invalidate_all_user_access_tokens` (src/app/crud/token.py lines
    93-101): bulk UPDATE `is_active=False` on the user's active rows of the
    given type.  No function in src/ calls it. -/
def invalidate_all_user_access_tokens (db : DB) (user : UserRow)
    (token_type : TokenType) : DB :=
  { db with tokens := db.tokens.map (fun t =>
      if t.user_id = user.id ∧ t.is_active = true ∧ t.token_type = token_type then
        { t with is_active := false } else t) }

/-- `settings.access_token_expire_minutes` — read by `refresh_access_token`;
    the field is absent from the `Settings` class in src/app/core/config.py,
    so its value comes from the deployment environment.  Modelled from the
    spec: a fixed process-wide positive TTL; no claim depends on the value. -/
def access_token_expire_minutes : Int := 30

/-- `settings.session_expire_days` (src/app/core/config.py line 25). -/
def session_expire_days : Int := 14

/-- `settings.reset_token_expire_minutes` (src/app/core/config.py line 12). -/
def reset_token_expire_minutes : Int := 15

/-- `create_token` (src/app/core/security.py lines 53-87): builds the
    payload with a fresh `jti`, signs it, stores the matching row, and —
    after the row is already stored — raises `ValueError` if a refresh token
    was requested without a `Response` to attach the cookie to. -/
def create_token (sub_uid : Nat) (token_type : TokenType)
    (expires_delta : Int) (hasResponse : Bool) (now : Int) (db : DB) :
    Except PyExn Jwt × DB :=
  let expire := now + expires_delta
  let jti := db.nextFresh
  let encoded : Jwt :=
    .signed { sub := some (.uuidSub sub_uid), jti := some jti, exp := expire }
  let db1 := (store_token { db with nextFresh := db.nextFresh + 1 }
      sub_uid jti token_type expire).2
  if token_type = .refresh ∧ hasResponse = false then (.error .valueError, db1)
  else (.ok encoded, db1)

/-- `validate_token` (src/app/core/security.py lines 90-115): signature
    check via `verify_token` (passing `jwt.PyJWTError` as the credentials
    exception, so the `except jwt.PyJWTError` returns `False`, while a
    `ValueError` from an unparseable subject propagates), then user lookup,
    then store-row lookup by `jti` with owner and `is_active` checks, then
    the store-side expiry check, which lazily invalidates on failure. -/
def validate_token (token : Jwt) (token_type : TokenType) (now : Int)
    (db : DB) : Except PyExn (Option UserRow) × DB :=
  match verify_token token now (.pyJwtError none) with
  | .error (.pyJwtError _) => (.ok none, db)
  | .error e => (.error e, db)
  | .ok (user_id, jti) =>
    match get_user db user_id with
    | none => (.ok none, db)
    | some user =>
      match get_token db jti with
      | none => (.ok none, db)
      | some db_token =>
        if db_token.user_id ≠ user_id ∨ db_token.is_active = false then
          (.ok none, db)
        else if db_token.expires_at < now then
          (.ok none, invalidate_token db token_type jti)
        else
          (.ok (some user), db)

/-- `refresh_access_token` (src/app/core/security.py lines 118-140):
    validates the presented token as kind REFRESH, raises
    `PyJWTError("Invalid token")` on failure, and on success mints one new
    ACCESS token (with no `Response`, so `create_token` takes its
    non-refresh branch). -/
def refresh_access_token (refresh_token : Jwt) (now : Int) (db : DB) :
    Except PyExn Jwt × DB :=
  match validate_token refresh_token .refresh now db with
  | (.error e, db1) => (.error e, db1)
  | (.ok none, db1) => (.error (.pyJwtError (some .invalidTokenMsg)), db1)
  | (.ok (some user), db1) =>
    create_token user.id .access (access_token_expire_minutes * 60) false now db1

/-- `store_session` (src/app/crud/session.py lines 13-31). -/
def store_session (db : DB) (session_id : Nat) (data : Nat)
    (user_agent ip_address : Option String) (expires_at : Int) :
    SessionRow × DB :=
  let row : SessionRow :=
    { id := session_id, user_id := data, user_agent := user_agent,
      ip_address := ip_address, expires_at := expires_at }
  (row, { db with sessions := db.sessions ++ [row] })

/-- `get_session` (src/app/crud/session.py lines 48-51). -/
def get_session (db : DB) (session_id : Nat) : Option SessionRow :=
  db.sessions.find? (fun s => s.id == session_id)

/-- `delete_session` (src/app/crud/session.py lines 43-45): DELETE by id. -/
def delete_session (db : DB) (session_id : Nat) : DB :=
  { db with sessions := db.sessions.filter (fun s => !(s.id == session_id)) }

/-- `delete_session_by_user_id` (src/app/crud/session.py lines 38-40,
    re-exported by src/app/core/utils.py lines 80-83): DELETE every session
    row of the owner. -/
def delete_session_by_user_id (db : DB) (data : Nat) : DB :=
  { db with sessions := db.sessions.filter (fun s => !(s.user_id == data)) }

/-- `authenticate` (src/app/core/utils.py lines 39-58): email lookup, then
    password check.  The two failure branches raise 401 with two different
    detail messages; the `is_active` flag is not consulted. -/
def authenticate (db : DB) (email password : String) : Except PyExn UserRow :=
  match get_user_by_email db email with
  | none => .error (.http 401 (.userWithEmailDoesNotExist email))
  | some user =>
    match verify_password password user.hashed_password with
    | .error e => .error e
    | .ok ok =>
      if ok then .ok user else .error (.http 401 .passwordIncorrect)

/-- The JSON body of a successful login (src/app/api/auth.py lines 91-100),
    plus the HTTP status code. -/
structure LoginResponse where
  status : Nat
  message : String
  user_agent : Option String
  ip_address : Option String
  is_first_login : Option Bool
deriving DecidableEq

/-- The `is_first_login` flip of `login` (src/app/api/auth.py lines 85-89):
    `True` when the column is still NULL, `False` afterwards. -/
def firstFlag (user : UserRow) : Bool :=
  match user.is_first_login with
  | none => true
  | some _ => false

/-- The body of the `login` handler (src/app/api/auth.py lines 56-112),
    which runs after the `authenticate` dependency has produced `user`:
    deletes every session of the owner, deletes the cookie-carried session
    if any, opens a fresh session expiring `session_expire_days` days
    ahead, flips `is_first_login`, and returns the fresh session id (set as
    cookie) alongside the 200 body. -/
def login_body (user : UserRow) (cookie_session_id : Option Nat)
    (user_agent ip_address : Option String) (now : Int) (db : DB) :
    LoginResponse × Nat × DB :=
  let db1 := delete_session_by_user_id db user.id
  let db2 := match cookie_session_id with
    | some old_session_id => delete_session db1 old_session_id
    | none => db1
  let session_id := db2.nextFresh
  let expiry := now + session_expire_days * 86400
  let db3 := (store_session { db2 with nextFresh := db2.nextFresh + 1 }
      session_id user.id user_agent ip_address expiry).2
  let first := firstFlag user
  let db4 := update_user db3 user (fun u => { u with is_first_login := some first })
  ({ status := 200, message := "Successfully logged in",
     user_agent := user_agent, ip_address := ip_address,
     is_first_login := some first }, session_id, db4)

/-- `login` (src/app/api/auth.py lines 52-112): the `authenticate`
    dependency followed by the handler body. -/
def login (email password : String) (cookie_session_id : Option Nat)
    (user_agent ip_address : Option String) (now : Int) (db : DB) :
    Except PyExn (LoginResponse × Nat × DB) :=
  match authenticate db email password with
  | .error e => .error e
  | .ok user => .ok (login_body user cookie_session_id user_agent ip_address now db)

/-- `get_current_user` (src/app/dependencies.py lines 71-95): resolves the
    session cookie; an expired session row is deleted as a side effect
    before the 401 is raised; a session whose user was deleted is likewise
    removed before a 404. -/
def get_current_user (cookie_session_id : Option Nat) (now : Int) (db : DB) :
    Except PyExn UserRow × DB :=
  match cookie_session_id with
  | none => (.error (.http 401 .couldNotValidateCredentials), db)
  | some session_id =>
    match get_session db session_id with
    | none => (.error (.http 401 .couldNotValidateCredentials), db)
    | some s =>
      if s.expires_at < now then
        (.error (.http 401 .couldNotValidateCredentials), delete_session db s.id)
      else
        match get_user db s.user_id with
        | none => (.error (.http 404 .userNotFoundSessionDeleted),
                   delete_session db s.id)
        | some user => (.ok user, db)

/-- `get_current_active_user` (src/app/dependencies.py lines 98-107). -/
def get_current_active_user (current_user : UserRow) : Except PyExn UserRow :=
  if current_user.is_active then .ok current_user
  else .error (.http 403 .userCurrentlyInactive)

/-- The HTTP response of `forgot_password`: the route always answers 200;
    the body is the handler's return value (`null` when it returns `None`). -/
structure ForgotPasswordResponse where
  status : Nat
  body : Option String
deriving DecidableEq

/-- The reset JWT that `forgot_password` signs and emails (src/app/api/auth.py
    lines 185-192): claims `sub` and `exp` only — no `jti`, and no row is
    recorded in the token store. -/
def forgot_password_reset_jwt (user : UserRow) (now : Int) : Jwt :=
  .signed { sub := some (.uuidSub user.id), jti := none,
            exp := now + reset_token_expire_minutes * 60 }

/-- `forgot_password` (src/app/api/auth.py lines 177-210): if the email is
    known, signs `forgot_password_reset_jwt` and emails the reset link,
    returning a message body; if unknown, returns `None` (serialized as a
    `null` body under the route's 200 status).  Neither branch touches the
    store. -/
def forgot_password (email : String) (now : Int) (db : DB) :
    ForgotPasswordResponse × DB :=
  match get_user_by_email db email with
  | some user =>
    let _ := forgot_password_reset_jwt user now
    ({ status := 200, body := some "Password reset link sent to your email" }, db)
  | none => ({ status := 200, body := none }, db)

/-- `reset_password` (src/app/api/auth.py lines 216-248): decodes the bearer
    token (expired and otherwise-invalid signatures get distinct 401
    details), parses the subject (`uuid.UUID` failures propagate uncaught —
    the `except` clauses only catch PyJWT errors), looks up the user (401 if
    absent), then re-hashes and stores the new password.  The token store is
    never consulted or mutated. -/
def reset_password (token : Jwt) (new_password : String) (now : Int)
    (db : DB) : Except PyExn String × DB :=
  match jwtDecode token now with
  | .error .expiredSignature =>
      (.error (.http 401 .couldNotValidateCredentialsTokenExpired), db)
  | .error .invalidToken =>
      (.error (.http 401 .couldNotValidateCredentials), db)
  | .ok payload =>
    match payload.sub with
    | none => (.error .valueError, db)
    | some sub =>
      match parseUUID sub with
      | none => (.error .valueError, db)
      | some user_id =>
        match get_user db user_id with
        | none => (.error (.http 401 .couldNotValidateCredentials), db)
        | some user =>
          (.ok "Password reset successful",
           update_user db user
             (fun u => { u with hashed_password := hash_password new_password }))

/-! ### Concrete fixtures used by counterexamples and witnesses -/

/-- A registered active user with password "Secret123". -/
def exUser : UserRow :=
  { id := 1, email := "user@example.test", hashed_password := .good "Secret123",
    is_active := true, is_first_login := none }

def exAccessRow : TokenRow :=
  { jti := 10, user_id := 1, token_type := .access, expires_at := 5000,
    is_active := true }

def exRefreshRow : TokenRow :=
  { jti := 11, user_id := 1, token_type := .refresh, expires_at := 5000,
    is_active := true }

def exDB : DB :=
  { users := [exUser], tokens := [exAccessRow, exRefreshRow], sessions := [],
    nextFresh := 100 }

def exAccessJwt : Jwt :=
  .signed { sub := some (.uuidSub 1), jti := some 10, exp := 5000 }

def exRefreshJwt : Jwt :=
  .signed { sub := some (.uuidSub 1), jti := some 11, exp := 5000 }

/-- The access token minted by `refresh_access_token exRefreshJwt 100 exDB`:
    jti drawn from `exDB.nextFresh`, expiry 100 + 30 minutes. -/
def exNewAccessRow : TokenRow :=
  { jti := 100, user_id := 1, token_type := .access, expires_at := 1900,
    is_active := true }

def exNewAccessJwt : Jwt :=
  .signed { sub := some (.uuidSub 1), jti := some 100, exp := 1900 }

def exDBAfterRefresh : DB :=
  { users := [exUser], tokens := [exAccessRow, exRefreshRow, exNewAccessRow],
    sessions := [], nextFresh := 101 }

/-- A REFRESH row that is store-expired (at `now = 100`) but still active. -/
def exExpiredRefreshRow : TokenRow :=
  { jti := 12, user_id := 1, token_type := .refresh, expires_at := 50,
    is_active := true }

def exDBExpired : DB :=
  { users := [exUser], tokens := [exExpiredRefreshRow], sessions := [],
    nextFresh := 100 }

/-- A token for `exExpiredRefreshRow` whose signed expiry is still in the
    future, so only the store-side expiry check can reject it. -/
def exExpiredStoreJwt : Jwt :=
  .signed { sub := some (.uuidSub 1), jti := some 12, exp := 5000 }

def exResetRow1 : TokenRow :=
  { jti := 13, user_id := 1, token_type := .reset, expires_at := 5000,
    is_active := true }

def exResetRow2 : TokenRow :=
  { jti := 14, user_id := 1, token_type := .reset, expires_at := 5000,
    is_active := true }

def exDBReset : DB :=
  { users := [exUser], tokens := [exResetRow1, exResetRow2], sessions := [],
    nextFresh := 100 }

def exResetJwt1 : Jwt :=
  .signed { sub := some (.uuidSub 1), jti := some 13, exp := 5000 }

def exResetJwt2 : Jwt :=
  .signed { sub := some (.uuidSub 1), jti := some 14, exp := 5000 }

def exUserNewPw : UserRow :=
  { exUser with hashed_password := .good "NewPass1" }

def exDBAfterReset : DB :=
  { exDBReset with users := [exUserNewPw] }

/-- A session row that is expired at `now = 100`. -/
def exExpiredSessionRow : SessionRow :=
  { id := 50, user_id := 1, user_agent := none, ip_address := none,
    expires_at := 80 }

def exDBSessionExpired : DB :=
  { users := [exUser], tokens := [], sessions := [exExpiredSessionRow],
    nextFresh := 100 }

def exInactiveUser : UserRow :=
  { exUser with is_active := false }

def exDBInactive : DB :=
  { users := [exInactiveUser], tokens := [], sessions := [], nextFresh := 100 }

/-! ### Generic list lemmas -/

theorem find?_eq_none_of_all {α : Type} (l : List α) (p : α → Bool)
    (h : ∀ x ∈ l, p x = false) : l.find? p = none := by
  induction l with
  | nil => rfl
  | cons a l ih =>
    have ha : p a = false := h a (List.mem_cons_self a l)
    simp only [List.find?, ha]
    exact ih (fun x hx => h x (List.mem_cons_of_mem a hx))

theorem find?_append_left_none {α : Type} (l₁ l₂ : List α) (p : α → Bool)
    (h : l₁.find? p = none) : (l₁ ++ l₂).find? p = l₂.find? p := by
  induction l₁ with
  | nil => rfl
  | cons a l ih =>
    simp only [List.find?] at h ⊢
    cases hpa : p a with
    | true => rw [hpa] at h; simp at h
    | false =>
      rw [hpa] at h
      simp only [List.cons_append, List.find?, hpa]
      exact ih h

theorem find?_map_comm {α : Type} (l : List α) (f : α → α) (p : α → Bool)
    (hp : ∀ x, p (f x) = p x) : (l.map f).find? p = (l.find? p).map f := by
  induction l with
  | nil => rfl
  | cons a l ih =>
    simp only [List.map, List.find?, hp a]
    cases hpa : p a with
    | true => rfl
    | false => exact ih

/-! ### Inversion lemmas about the token layer -/

theorem jwtDecode_ok_inv (token : Jwt) (now : Int) (p : Payload)
    (h : jwtDecode token now = .ok p) : token = .signed p ∧ now < p.exp := by
  cases token with
  | forged s => simp [jwtDecode] at h
  | signed q =>
    unfold jwtDecode at h
    by_cases hexp : q.exp ≤ now
    · simp [hexp] at h
    · simp [hexp] at h
      subst h
      exact ⟨rfl, by omega⟩

theorem verify_token_ok_inv (token : Jwt) (now : Int) (ce : PyExn)
    (user_id jti : Nat)
    (h : verify_token token now ce = .ok (user_id, jti)) :
    ∃ p, token = .signed p ∧ now < p.exp ∧ p.jti = some jti ∧
      p.sub = some (.uuidSub user_id) := by
  unfold verify_token at h
  split at h
  · exact absurd h (by simp)
  next payload hdec =>
    obtain ⟨htok, hexp⟩ := jwtDecode_ok_inv token now payload hdec
    split at h
    next j sub hj hs =>
      split at h
      next uid hparse =>
        cases sub with
        | uuidSub v =>
          simp [parseUUID] at hparse
          simp only [Except.ok.injEq, Prod.mk.injEq] at h
          exact ⟨payload, htok, hexp, by rw [hj, h.2], by rw [hs, hparse, h.1]⟩
        | rawSub s => simp [parseUUID] at hparse
      · exact absurd h (by simp)
    · exact absurd h (by simp)
    · exact absurd h (by simp)

theorem verify_token_signed_eq (p : Payload) (now : Int) (ce : PyExn)
    (user_id jti : Nat) (hexp : now < p.exp) (hjti : p.jti = some jti)
    (hsub : p.sub = some (.uuidSub user_id)) :
    verify_token (.signed p) now ce = .ok (user_id, jti) := by
  have h1 : ¬ p.exp ≤ now := by omega
  simp [verify_token, jwtDecode, h1, hjti, hsub, parseUUID]

/-- Inversion of a successful `validate_token`: the store is untouched and
    every check that the code actually performs held — note the absence of
    any condition relating `row.token_type` to the expected `token_type`. -/
theorem validate_token_ok_some_inv (token : Jwt) (token_type : TokenType)
    (now : Int) (db : DB) (u : UserRow) (db' : DB)
    (h : validate_token token token_type now db = (.ok (some u), db')) :
    db' = db ∧ ∃ p user_id jti row,
      token = .signed p ∧ now < p.exp ∧ p.sub = some (.uuidSub user_id) ∧
      p.jti = some jti ∧ get_user db user_id = some u ∧
      get_token db jti = some row ∧ row.user_id = user_id ∧
      row.is_active = true ∧ now ≤ row.expires_at := by
  unfold validate_token at h
  split at h
  · simp at h
  · simp at h
  next user_id jti hv =>
    split at h
    · simp at h
    next user huser =>
      split at h
      · simp at h
      next db_token htok =>
        split at h
        · simp at h
        next hok =>
          split at h
          · simp at h
          next hnexp =>
            simp only [Prod.mk.injEq, Except.ok.injEq, Option.some.injEq] at h
            obtain ⟨hu, hdb⟩ := h
            obtain ⟨q, htokeq, hqexp, hqjti, hqsub⟩ :=
              verify_token_ok_inv token now (.pyJwtError none) user_id jti hv
            push_neg at hok
            refine ⟨hdb.symm, q, user_id, jti, db_token, htokeq, hqexp,
              hqsub, hqjti, ?_, htok, hok.1, ?_, by omega⟩
            · rw [← hu]; exact huser
            · cases hact : db_token.is_active with
              | true => rfl
              | false => exact absurd hact hok.2

/-! ### Lemmas about the session login flow -/

/-- The effect of `login`'s optional cookie-session deletion on the session
    list (src/app/api/auth.py lines 62-64), packaged for lemma statements. -/
def cookieFilter (cookie_session_id : Option Nat) (l : List SessionRow) :
    List SessionRow :=
  match cookie_session_id with
  | some old_session_id => l.filter (fun s => !(s.id == old_session_id))
  | none => l

theorem cookieFilter_subset (cookie : Option Nat) (l : List SessionRow)
    (r : SessionRow) (h : r ∈ cookieFilter cookie l) : r ∈ l := by
  cases cookie with
  | none => exact h
  | some c => exact (List.mem_filter.mp h).1

/-- Closed form of the login handler body. -/
theorem login_body_eq (user : UserRow) (cookie : Option Nat)
    (ua ip : Option String) (now : Int) (db : DB) :
    login_body user cookie ua ip now db =
      ({ status := 200, message := "Successfully logged in",
         user_agent := ua, ip_address := ip,
         is_first_login := some (firstFlag user) },
       db.nextFresh,
       { users := db.users.map (fun x =>
           if x.id == user.id then { x with is_first_login := some (firstFlag user) } else x),
         tokens := db.tokens,
         sessions := cookieFilter cookie
             (db.sessions.filter (fun s => !(s.user_id == user.id))) ++
           [{ id := db.nextFresh, user_id := user.id, user_agent := ua,
              ip_address := ip,
              expires_at := now + session_expire_days * 86400 }],
         nextFresh := db.nextFresh + 1 }) := by
  cases cookie <;> rfl

/-- A successful `authenticate` reduces `login` to its body. -/
theorem login_ok (db : DB) (u : UserRow) (email password : String)
    (cookie : Option Nat) (ua ip : Option String) (now : Int)
    (hmail : get_user_by_email db email = some u)
    (hpw : passlibVerify password u.hashed_password = .ok true) :
    login email password cookie ua ip now db =
      .ok (login_body u cookie ua ip now db) := by
  unfold login authenticate verify_password
  rw [hmail]
  simp [hpw]

/-! ### Claim C9 — PasswordVault verification totality -/

/-- C9 counterexample: the claim says `verify` returns a boolean (false on a
    malformed digest) and never throws; on a malformed digest the code
    raises passlib `UnknownHashError` instead of returning `false`. -/
theorem claim_C9_counterexample :
    verify_password "Secret123" (.malformed "not-a-bcrypt-hash")
      = .error .unknownHashError ∧
    verify_password "Secret123" (.malformed "not-a-bcrypt-hash")
      ≠ .ok false := by
  decide

/-- C9 (amended): `verify_password` returns the boolean comparison for every
    well-formed digest, but on a malformed digest the passlib
    `UnknownHashError` propagates — `verify_password` installs no handler. -/
theorem claim_C9_verify_total_on_wellformed_raises_on_malformed :
    (∀ plain pw : String, verify_password plain (.good pw) = .ok (plain == pw)) ∧
    (∀ plain s : String,
      verify_password plain (.malformed s) = .error .unknownHashError) :=
  ⟨fun _ _ => rfl, fun _ _ => rfl⟩

/-! ### Claim C10 — unparseable subject raises ValueError -/

/-- C10: a token carrying a valid signature, an unexpired `exp` (100 < 5000)
    and a `jti`, whose `sub` is not a parseable UUID, makes `verify_token`
    raise `ValueError` from the `uuid.UUID` conversion — not the
    caller-supplied credentials exception, whatever that exception is — so a
    caller catching only the supplied exception type does not handle it. -/
theorem claim_C10_unparseable_sub_raises_valueError :
    ∀ credentials_exception : PyExn,
      verify_token
        (.signed { sub := some (.rawSub "not-a-uuid"), jti := some 7, exp := 5000 })
        100 credentials_exception = .error .valueError := by
  intro _
  rfl

/-! ### Claim C6 — login failure indistinguishability -/

/-- C6 counterexample: the two failing logins produce different 401 detail
    messages (one of which even echoes the email), so the responses are
    distinguishable, contrary to the claim. -/
theorem claim_C6_counterexample :
    authenticate exDB "ghost@nowhere.test" "Secret123"
      = .error (.http 401 (.userWithEmailDoesNotExist "ghost@nowhere.test")) ∧
    authenticate exDB "user@example.test" "WrongPassword"
      = .error (.http 401 .passwordIncorrect) ∧
    (PyExn.http 401 (.userWithEmailDoesNotExist "ghost@nowhere.test"))
      ≠ (PyExn.http 401 .passwordIncorrect) := by
  decide

/-- C6 (amended): both failing logins return HTTP 401, but with different
    detail messages — an unknown email yields the user-does-not-exist
    message naming the email, a known email with a wrong password yields the
    password-incorrect message — so the response discloses which half was
    wrong and whether the account exists. -/
theorem claim_C6_login_failures_distinguishable :
    (∀ (db : DB) (email password : String),
      get_user_by_email db email = none →
      authenticate db email password
        = .error (.http 401 (.userWithEmailDoesNotExist email))) ∧
    (∀ (db : DB) (email password : String) (u : UserRow),
      get_user_by_email db email = some u →
      passlibVerify password u.hashed_password = .ok false →
      authenticate db email password = .error (.http 401 .passwordIncorrect)) ∧
    (∀ email : String,
      Detail.userWithEmailDoesNotExist email ≠ Detail.passwordIncorrect) := by
  refine ⟨?_, ?_, ?_⟩
  · intro db email password h
    unfold authenticate
    rw [h]
  · intro db email password u h hv
    unfold authenticate verify_password
    rw [h]
    simp [hv]
  · intro email h
    exact Detail.noConfusion h

theorem claim_C6_login_failures_distinguishable_witness :
    authenticate exDB "ghost2@nowhere.test" "pw"
      = .error (.http 401 (.userWithEmailDoesNotExist "ghost2@nowhere.test")) ∧
    authenticate exDB "user@example.test" "AlsoWrong"
      = .error (.http 401 .passwordIncorrect) :=
  ⟨claim_C6_login_failures_distinguishable.1 exDB "ghost2@nowhere.test" "pw"
      (by decide),
   claim_C6_login_failures_distinguishable.2.1 exDB "user@example.test"
      "AlsoWrong" exUser (by decide) (by decide)⟩

/-! ### Claim C4 — forgot_password account-existence leak -/

/-- C4 counterexample: both runs answer 200, but the bodies differ — a
    message object for the known email, `null` for the unknown one — so the
    responses are not identical and reveal account existence. -/
theorem claim_C4_counterexample :
    (forgot_password "user@example.test" 100 exDB).1
      = { status := 200, body := some "Password reset link sent to your email" } ∧
    (forgot_password "ghost@nowhere.test" 100 exDB).1
      = { status := 200, body := none } ∧
    (forgot_password "user@example.test" 100 exDB).1
      ≠ (forgot_password "ghost@nowhere.test" 100 exDB).1 := by
  decide

/-- C4 (amended): `forgot_password` always answers HTTP 200 and never
    touches the store, but the response body is the success message exactly
    for a known email and `null` for an unknown one, so the body
    distinguishes the two cases. -/
theorem claim_C4_forgot_password_body_leaks_existence :
    ∀ (db : DB) (email : String) (now : Int),
      (forgot_password email now db).1.status = 200 ∧
      (forgot_password email now db).2 = db ∧
      (get_user_by_email db email = none →
        (forgot_password email now db).1.body = none) ∧
      (∀ u : UserRow, get_user_by_email db email = some u →
        (forgot_password email now db).1.body
          = some "Password reset link sent to your email") := by
  intro db email now
  unfold forgot_password
  cases h : get_user_by_email db email with
  | none => simp
  | some u => simp

theorem claim_C4_forgot_password_body_leaks_existence_witness :
    (forgot_password "ghost2@nowhere.test" 100 exDB).1.body = none ∧
    (forgot_password "user@example.test" 200 exDB).1.body
      = some "Password reset link sent to your email" :=
  ⟨(claim_C4_forgot_password_body_leaks_existence exDB "ghost2@nowhere.test"
      100).2.2.1 (by decide),
   (claim_C4_forgot_password_body_leaks_existence exDB "user@example.test"
      200).2.2.2 exUser (by decide)⟩

/-! ### Claim C2 — validate_token checks (no kind check) -/

/-- C2 counterexample: a REFRESH-kind store row presented where ACCESS is
    expected validates successfully — `validate_token` never compares the
    row's `token_type` with the expected one. -/
theorem claim_C2_counterexample :
    get_token exDB 11 = some exRefreshRow ∧
    exRefreshRow.token_type = .refresh ∧
    TokenType.refresh ≠ TokenType.access ∧
    validate_token exRefreshJwt .access 100 exDB = (.ok (some exUser), exDB) := by
  decide

/-- C2 (amended): a successful `validate_token` requires the store row to
    exist under the signed `jti`, to belong to the signed subject, to be
    active, and to be store-unexpired (besides the signature and signed
    expiry) — but nothing relates the row's kind to the expected kind, so a
    REFRESH-kind row presented where ACCESS is expected does validate. -/
theorem claim_C2_validate_conditions (token : Jwt) (token_type : TokenType)
    (now : Int) (db : DB) (u : UserRow) (db' : DB)
    (h : validate_token token token_type now db = (.ok (some u), db')) :
    db' = db ∧ ∃ p user_id jti row,
      token = .signed p ∧ now < p.exp ∧ p.sub = some (.uuidSub user_id) ∧
      p.jti = some jti ∧ get_user db user_id = some u ∧
      get_token db jti = some row ∧ row.user_id = user_id ∧
      row.is_active = true ∧ now ≤ row.expires_at :=
  validate_token_ok_some_inv token token_type now db u db' h

theorem claim_C2_validate_conditions_witness :
    exDB = exDB ∧ ∃ p user_id jti row,
      exRefreshJwt = .signed p ∧ (100 : Int) < p.exp ∧
      p.sub = some (.uuidSub user_id) ∧ p.jti = some jti ∧
      get_user exDB user_id = some exUser ∧
      get_token exDB jti = some row ∧ row.user_id = user_id ∧
      row.is_active = true ∧ (100 : Int) ≤ row.expires_at :=
  claim_C2_validate_conditions exRefreshJwt .access 100 exDB exUser exDB
    (by decide)

/-! ### Claim C3 — reset_password invalidation fan-out -/

theorem get_user_update_user (db : DB) (user : UserRow) (f : UserRow → UserRow)
    (hf : ∀ x, (f x).id = x.id) (uid : Nat) :
    get_user (update_user db user f) uid =
      (get_user db uid).map (fun x => if x.id == user.id then f x else x) := by
  unfold get_user update_user
  apply find?_map_comm
  intro x
  by_cases h : x.id == user.id
  · simp [h, hf]
  · simp [h]

/-- C3 counterexample: after a successful `reset_password` with one reset
    token, the store is untouched — the presented reset credential and the
    other outstanding RESET credential both remain active, the other token
    still validates, and it can even still reset the password again. -/
theorem claim_C3_counterexample :
    reset_password exResetJwt1 "NewPass1" 100 exDBReset
      = (.ok "Password reset successful", exDBAfterReset) ∧
    get_token exDBAfterReset 13 = some exResetRow1 ∧
    get_token exDBAfterReset 14 = some exResetRow2 ∧
    exResetRow1.is_active = true ∧
    exResetRow2.is_active = true ∧
    (validate_token exResetJwt2 .reset 100 exDBAfterReset).1
      = .ok (some exUserNewPw) ∧
    (reset_password exResetJwt2 "Other2" 100 exDBAfterReset).1
      = .ok "Password reset successful" := by
  decide

/-- C3 (amended): a successful `reset_password` stores the re-hashed new
    password, but performs no credential invalidation whatsoever: the token
    and session stores are returned unchanged, so the presented reset
    credential and every other outstanding RESET credential remain valid
    until their natural expiry. -/
theorem claim_C3_reset_password_stores_hash_only (token : Jwt)
    (new_password : String) (now : Int) (db : DB) (msg : String) (db' : DB)
    (h : reset_password token new_password now db = (.ok msg, db')) :
    db'.tokens = db.tokens ∧ db'.sessions = db.sessions ∧
    ∃ p user_id u, token = .signed p ∧ p.sub = some (.uuidSub user_id) ∧
      get_user db user_id = some u ∧
      get_user db' user_id
        = some { u with hashed_password := hash_password new_password } := by
  unfold reset_password at h
  split at h
  · simp at h
  · simp at h
  next payload hdec =>
    obtain ⟨htok, _⟩ := jwtDecode_ok_inv token now payload hdec
    split at h
    · simp at h
    next sub hsub =>
      split at h
      · simp at h
      next user_id hparse =>
        split at h
        · simp at h
        next user huser =>
          simp only [Prod.mk.injEq, Except.ok.injEq] at h
          obtain ⟨-, hdb⟩ := h
          subst hdb
          have hid : user.id = user_id := by
            have := List.find?_some huser
            simpa using this
          refine ⟨rfl, rfl, payload, user_id, user, htok, ?_, huser, ?_⟩
          · cases sub with
            | uuidSub v => simp [parseUUID] at hparse; rw [hsub, hparse]
            | rawSub s => simp [parseUUID] at hparse
          · rw [get_user_update_user db user
              (fun u => { u with hashed_password := hash_password new_password })
              (fun x => rfl) user_id]
            rw [huser]
            simp [hid]

theorem claim_C3_reset_password_stores_hash_only_witness :
    exDBAfterReset.tokens = exDBReset.tokens ∧
    exDBAfterReset.sessions = exDBReset.sessions ∧
    ∃ p user_id u, exResetJwt1 = .signed p ∧
      p.sub = some (.uuidSub user_id) ∧
      get_user exDBReset user_id = some u ∧
      get_user exDBAfterReset user_id
        = some { u with hashed_password := hash_password "NewPass1" } :=
  claim_C3_reset_password_stores_hash_only exResetJwt1 "NewPass1" 100
    exDBReset "Password reset successful" exDBAfterReset (by decide)

/-! ### Claim C1 — refresh and prior access tokens -/

/-- C1 counterexample: after a successful refresh, the previously issued
    access token for the same owner still validates and its store row is
    still active — refresh invalidates nothing. -/
theorem claim_C1_counterexample :
    refresh_access_token exRefreshJwt 100 exDB
      = (.ok exNewAccessJwt, exDBAfterRefresh) ∧
    validate_token exAccessJwt .access 100 exDBAfterRefresh
      = (.ok (some exUser), exDBAfterRefresh) ∧
    get_token exDBAfterRefresh 10 = some exAccessRow ∧
    exAccessRow.is_active = true := by
  decide

/-- Closed form of `create_token` for a non-refresh kind (as called by
    `refresh_access_token` with no `Response`). -/
theorem create_token_access_eq (sub_uid : Nat) (delta now : Int) (db : DB) :
    create_token sub_uid .access delta false now db =
      (.ok (.signed { sub := some (.uuidSub sub_uid),
                      jti := some db.nextFresh,
                      exp := now + delta }),
       { db with nextFresh := db.nextFresh + 1,
                 tokens := db.tokens ++ [{ jti := db.nextFresh,
                                           user_id := sub_uid,
                                           token_type := .access,
                                           expires_at := now + delta,
                                           is_active := true }] }) := rfl

/-- C1 (amended): a successful `refresh_access_token` issues exactly one
    fresh ACCESS token but does not invalidate (or otherwise touch) any of
    the principal's prior tokens: the resulting store is the old store with
    one new active ACCESS row appended, so every previously issued access
    token keeps validating.  (`invalidate_all_user_access_tokens` exists in
    the CRUD layer but is called from nowhere.) -/
theorem claim_C1_refresh_appends_one_access_row (refresh_token : Jwt)
    (now : Int) (db : DB) (t : Jwt) (db' : DB)
    (h : refresh_access_token refresh_token now db = (.ok t, db')) :
    (∀ r ∈ db.tokens, r ∈ db'.tokens) ∧
    db'.tokens.length = db.tokens.length + 1 ∧
    ∃ newRow : TokenRow, db'.tokens = db.tokens ++ [newRow] ∧
      newRow.token_type = .access ∧ newRow.is_active = true := by
  unfold refresh_access_token at h
  split at h
  · simp at h
  · simp at h
  next user db1 hval =>
    obtain ⟨hdb1, -⟩ := validate_token_ok_some_inv _ _ _ _ _ _ hval
    subst hdb1
    rw [create_token_access_eq] at h
    simp only [Prod.mk.injEq, Except.ok.injEq] at h
    obtain ⟨-, hdb⟩ := h
    subst hdb
    refine ⟨?_, ?_, ?_⟩
    · intro r hr
      exact List.mem_append_left _ hr
    · simp
    · exact ⟨_, rfl, rfl, rfl⟩

/-! ### Claim C5 — absolute expiry and lazy revocation -/

/-- C5 counterexample: an expired-but-still-active token row does fail
    validation, but when the expected kind passed to `validate_token`
    differs from the row's stored kind, the lazy revocation
    (`invalidate_token` filters on BOTH `jti` and `token_type`) matches no
    row: the store is returned unchanged and the expired credential is
    still marked active after the failed attempt. -/
theorem claim_C5_counterexample :
    get_token exDBExpired 12 = some exExpiredRefreshRow ∧
    exExpiredRefreshRow.is_active = true ∧
    exExpiredRefreshRow.expires_at < 100 ∧
    validate_token exExpiredStoreJwt .access 100 exDBExpired
      = (.ok none, exDBExpired) ∧
    get_token (validate_token exExpiredStoreJwt .access 100 exDBExpired).2 12
      = some exExpiredRefreshRow := by
  decide

/-- C5 (amended): a store-expired credential always fails validation
    regardless of `is_active`; on the failed attempt, an expired session
    row is always deleted, and an expired-but-active token row is flipped
    inactive only when the expected kind equals the row's stored kind —
    with a mismatched expected kind the update matches nothing and the row
    stays active (see the counterexample). -/
theorem claim_C5_expired_always_fails_lazy_revocation_gap :
    (∀ (p : Payload) (token_type : TokenType) (now : Int) (db : DB)
        (jti : Nat) (row : TokenRow) (u : UserRow),
      p.jti = some jti → get_token db jti = some row →
      row.expires_at < now →
      (validate_token (.signed p) token_type now db).1 ≠ .ok (some u)) ∧
    (∀ (p : Payload) (token_type : TokenType) (now : Int) (db : DB)
        (user_id jti : Nat) (row : TokenRow) (u : UserRow),
      now < p.exp → p.sub = some (.uuidSub user_id) → p.jti = some jti →
      get_user db user_id = some u → get_token db jti = some row →
      row.user_id = user_id → row.is_active = true →
      row.expires_at < now →
      validate_token (.signed p) token_type now db
        = (.ok none, invalidate_token db token_type jti) ∧
      (∀ r ∈ (invalidate_token db token_type jti).tokens,
        r.jti = jti → r.token_type = token_type → r.is_active = false)) ∧
    (∀ (session_id : Nat) (now : Int) (db : DB) (s : SessionRow),
      get_session db session_id = some s → s.expires_at < now →
      get_current_user (some session_id) now db
        = (.error (.http 401 .couldNotValidateCredentials),
           delete_session db s.id) ∧
      (∀ r ∈ (delete_session db s.id).sessions, r.id ≠ s.id)) := by
  refine ⟨?_, ?_, ?_⟩
  · intro p token_type now db jti row u hjti htok hexp hcontra
    have h' : validate_token (.signed p) token_type now db
        = (.ok (some u), (validate_token (.signed p) token_type now db).2) := by
      rw [← hcontra]
    obtain ⟨-, q, uid', jti', row', heq, -, -, hqjti, -, htok', -, -, hle⟩ :=
      validate_token_ok_some_inv _ _ _ _ _ _ h'
    cases heq
    rw [hjti] at hqjti
    cases hqjti
    rw [htok] at htok'
    cases htok'
    omega
  · intro p token_type now db user_id jti row u hexp hsub hjti huser htok
      hown hact hrowexp
    have hv : verify_token (.signed p) now (.pyJwtError none)
        = .ok (user_id, jti) :=
      verify_token_signed_eq p now (.pyJwtError none) user_id jti hexp hjti hsub
    constructor
    · simp only [validate_token, hv, huser, htok]
      simp [hown, hact, hrowexp]
    · intro r hr hjti' htype'
      simp only [invalidate_token] at hr
      obtain ⟨x, -, hfx⟩ := List.mem_map.mp hr
      by_cases hcond : x.jti = jti ∧ x.token_type = token_type
      · rw [if_pos hcond] at hfx
        rw [← hfx]
      · rw [if_neg hcond] at hfx
        subst hfx
        exact absurd ⟨hjti', htype'⟩ hcond
  · intro session_id now db s hs hexp
    constructor
    · simp only [get_current_user, hs]
      simp [hexp]
    · intro r hr
      simp only [delete_session] at hr
      have := (List.mem_filter.mp hr).2
      simpa using this

theorem claim_C5_expired_always_fails_lazy_revocation_gap_witness :
    ((validate_token exExpiredStoreJwt .access 100 exDBExpired).1
      ≠ .ok (some exUser)) ∧
    (validate_token exExpiredStoreJwt .refresh 100 exDBExpired
      = (.ok none, invalidate_token exDBExpired .refresh 12)) ∧
    (get_current_user (some 50) 100 exDBSessionExpired
      = (.error (.http 401 .couldNotValidateCredentials),
         delete_session exDBSessionExpired 50)) :=
  ⟨claim_C5_expired_always_fails_lazy_revocation_gap.1
      { sub := some (.uuidSub 1), jti := some 12, exp := 5000 } .access 100
      exDBExpired 12 exExpiredRefreshRow exUser (by decide) (by decide)
      (by decide),
   (claim_C5_expired_always_fails_lazy_revocation_gap.2.1
      { sub := some (.uuidSub 1), jti := some 12, exp := 5000 } .refresh 100
      exDBExpired 1 12 exExpiredRefreshRow exUser (by decide) (by decide)
      (by decide) (by decide) (by decide) (by decide) (by decide)
      (by decide)).1,
   (claim_C5_expired_always_fails_lazy_revocation_gap.2.2 50 100
      exDBSessionExpired exExpiredSessionRow (by decide) (by decide)).1⟩

/-! ### Claim C7 — deactivated principals at login -/

def exLoginRespInactive : LoginResponse :=
  { status := 200, message := "Successfully logged in", user_agent := none,
    ip_address := none, is_first_login := some true }

def exInactiveSessionRow : SessionRow :=
  { id := 100, user_id := 1, user_agent := none, ip_address := none,
    expires_at := 100 + session_expire_days * 86400 }

def exDBInactiveAfter : DB :=
  { users := [{ exInactiveUser with is_first_login := some true }],
    tokens := [], sessions := [exInactiveSessionRow], nextFresh := 101 }

/-- C7 counterexample: a deactivated principal presenting its correct email
    and password is authenticated, logs in with HTTP 200, and receives a
    fresh session credential — neither `authenticate` nor `login` consults
    `is_active`, so login does not fail with InactiveAccount. -/
theorem claim_C7_counterexample :
    exInactiveUser.is_active = false ∧
    authenticate exDBInactive "user@example.test" "Secret123"
      = .ok exInactiveUser ∧
    login "user@example.test" "Secret123" none none none 100 exDBInactive
      = .ok (exLoginRespInactive, 100, exDBInactiveAfter) ∧
    get_session exDBInactiveAfter 100 = some exInactiveSessionRow := by
  decide

/-- C7 (amended): `authenticate` and `login` never read `is_active` — any
    principal with matching credentials, deactivated or not, authenticates
    and is issued a fresh session; deactivation is only enforced on
    subsequent requests by the `get_current_active_user` dependency, which
    rejects with HTTP 403. -/
theorem claim_C7_inactive_not_checked_at_login :
    (∀ (db : DB) (email password : String) (u : UserRow),
      get_user_by_email db email = some u →
      passlibVerify password u.hashed_password = .ok true →
      authenticate db email password = .ok u) ∧
    (∀ (db : DB) (email password : String) (u : UserRow)
        (cookie : Option Nat) (ua ip : Option String) (now : Int),
      get_user_by_email db email = some u →
      passlibVerify password u.hashed_password = .ok true →
      (∀ s ∈ db.sessions, s.id < db.nextFresh) →
      ∃ resp db',
        login email password cookie ua ip now db
          = .ok (resp, db.nextFresh, db') ∧
        get_session db' db.nextFresh = some
          { id := db.nextFresh, user_id := u.id, user_agent := ua,
            ip_address := ip,
            expires_at := now + session_expire_days * 86400 }) ∧
    (∀ u : UserRow, u.is_active = false →
      get_current_active_user u = .error (.http 403 .userCurrentlyInactive)) := by
  refine ⟨?_, ?_, ?_⟩
  · intro db email password u hmail hpw
    unfold authenticate verify_password
    rw [hmail]
    simp [hpw]
  · intro db email password u cookie ua ip now hmail hpw hfresh
    have hleft : (cookieFilter cookie
        (db.sessions.filter (fun s => !(s.user_id == u.id)))).find?
          (fun s => s.id == db.nextFresh) = none := by
      apply find?_eq_none_of_all
      intro r hr
      have hr' : r ∈ db.sessions :=
        (List.mem_filter.mp (cookieFilter_subset _ _ _ hr)).1
      have hlt := hfresh r hr'
      simp
      omega
    refine ⟨{ status := 200, message := "Successfully logged in",
              user_agent := ua, ip_address := ip,
              is_first_login := some (firstFlag u) },
            { users := db.users.map (fun x =>
                if x.id == u.id then { x with is_first_login := some (firstFlag u) }
                else x),
              tokens := db.tokens,
              sessions := cookieFilter cookie
                  (db.sessions.filter (fun s => !(s.user_id == u.id))) ++
                [{ id := db.nextFresh, user_id := u.id, user_agent := ua,
                   ip_address := ip,
                   expires_at := now + session_expire_days * 86400 }],
              nextFresh := db.nextFresh + 1 }, ?_, ?_⟩
    · rw [login_ok db u email password cookie ua ip now hmail hpw,
        login_body_eq]
    · unfold get_session
      show (cookieFilter cookie
          (db.sessions.filter (fun s => !(s.user_id == u.id))) ++
        [({ id := db.nextFresh, user_id := u.id, user_agent := ua,
            ip_address := ip,
            expires_at := now + session_expire_days * 86400 } : SessionRow)]).find?
          (fun s => s.id == db.nextFresh) = _
      rw [find?_append_left_none _ _ _ hleft]
      simp [List.find?]
  · intro u h
    unfold get_current_active_user
    simp [h]

theorem claim_C7_inactive_not_checked_at_login_witness :
    authenticate exDBInactive "user@example.test" "Secret123"
      = .ok exInactiveUser ∧
    (∃ resp db',
      login "user@example.test" "Secret123" none none none 200 exDBInactive
        = .ok (resp, 100, db') ∧
      get_session db' 100 = some
        { id := 100, user_id := 1, user_agent := none, ip_address := none,
          expires_at := 200 + session_expire_days * 86400 }) ∧
    get_current_active_user exInactiveUser
      = .error (.http 403 .userCurrentlyInactive) :=
  ⟨claim_C7_inactive_not_checked_at_login.1 exDBInactive "user@example.test"
      "Secret123" exInactiveUser (by decide) (by decide),
   claim_C7_inactive_not_checked_at_login.2.1 exDBInactive "user@example.test"
      "Secret123" exInactiveUser none none none 200 (by decide) (by decide)
      (by decide),
   claim_C7_inactive_not_checked_at_login.2.2 exInactiveUser (by decide)⟩

theorem claim_C1_refresh_appends_one_access_row_witness :
    (∀ r ∈ exDB.tokens, r ∈ exDBAfterRefresh.tokens) ∧
    exDBAfterRefresh.tokens.length = exDB.tokens.length + 1 ∧
    ∃ newRow : TokenRow, exDBAfterRefresh.tokens = exDB.tokens ++ [newRow] ∧
      newRow.token_type = .access ∧ newRow.is_active = true :=
  claim_C1_refresh_appends_one_access_row exRefreshJwt 100 exDB
    exNewAccessJwt exDBAfterRefresh (by decide)

/-! ### Claim C8 — single active session across two logins -/

theorem mem_cookieFilter_filter (c : Option Nat) (l : List SessionRow)
    (uid : Nat) (r : SessionRow)
    (h : r ∈ cookieFilter c (l.filter (fun s => !(s.user_id == uid)))) :
    r ∈ l ∧ r.user_id ≠ uid := by
  have h' := List.mem_filter.mp (cookieFilter_subset _ _ _ h)
  refine ⟨h'.1, ?_⟩
  simpa using h'.2

theorem get_user_by_email_after_flip (dbx : DB) (us : List UserRow)
    (u : UserRow) (b : Bool) (email : String)
    (husers : dbx.users = us.map (fun x =>
      if x.id == u.id then { x with is_first_login := some b } else x))
    (hfind : us.find? (fun x => x.email == email) = some u) :
    get_user_by_email dbx email = some { u with is_first_login := some b } := by
  unfold get_user_by_email
  rw [husers,
    find?_map_comm _ _ _ (fun x => by by_cases hx : x.id == u.id <;> simp [hx]),
    hfind]
  simp

theorem get_user_after_two_flips (dbx : DB) (us : List UserRow)
    (u : UserRow) (b₁ b₂ : Bool)
    (husers : dbx.users = (us.map (fun x =>
        if x.id == u.id then { x with is_first_login := some b₁ } else x)).map
      (fun x => if x.id == u.id then { x with is_first_login := some b₂ } else x))
    (hfind : us.find? (fun x => x.id == u.id) = some u) :
    get_user dbx u.id = some { u with is_first_login := some b₂ } := by
  unfold get_user
  rw [husers,
    find?_map_comm _ _ _ (fun x => by by_cases hx : x.id == u.id <;> simp [hx]),
    find?_map_comm _ _ _ (fun x => by by_cases hx : x.id == u.id <;> simp [hx]),
    hfind]
  simp

theorem get_session_of_sessions_eq (dbx : DB) (L : List SessionRow)
    (row : SessionRow) (sid : Nat) (hss : dbx.sessions = L ++ [row])
    (hL : ∀ r ∈ L, (r.id == sid) = false) :
    get_session dbx sid = if row.id == sid then some row else none := by
  unfold get_session
  rw [hss, find?_append_left_none _ _ _ (find?_eq_none_of_all _ _ hL)]
  cases hrow : row.id == sid <;> simp [List.find?, hrow]

/-- C8: the session-based login closes every previous session of the owner
    before opening a new one.  After `login` yields session `s1` and a
    second `login` for the same user yields `s2`, resolving `s1` fails with
    the 401 credentials error (its row was deleted by the second login) and
    resolving `s2` returns the principal (with its flipped
    `is_first_login`). -/
theorem claim_C8_second_login_supersedes_first (db : DB) (u : UserRow)
    (email password : String) (cookie₁ cookie₂ : Option Nat)
    (ua₁ ip₁ ua₂ ip₂ : Option String) (now₁ now₂ nowR : Int)
    (hmail : get_user_by_email db email = some u)
    (huid : get_user db u.id = some u)
    (hpw : passlibVerify password u.hashed_password = .ok true)
    (hfresh : ∀ s ∈ db.sessions, s.id < db.nextFresh)
    (hnow : ¬ now₂ + session_expire_days * 86400 < nowR) :
    ∃ r₁ db₁ r₂ db₂,
      login email password cookie₁ ua₁ ip₁ now₁ db
        = .ok (r₁, db.nextFresh, db₁) ∧
      login email password cookie₂ ua₂ ip₂ now₂ db₁
        = .ok (r₂, db.nextFresh + 1, db₂) ∧
      (get_current_user (some db.nextFresh) nowR db₂).1
        = .error (.http 401 .couldNotValidateCredentials) ∧
      (get_current_user (some (db.nextFresh + 1)) nowR db₂).1
        = .ok { u with is_first_login := some false } := by
  have hmail' := hmail
  unfold get_user_by_email at hmail'
  have huid' := huid
  unfold get_user at huid'
  refine ⟨(login_body u cookie₁ ua₁ ip₁ now₁ db).1,
          (login_body u cookie₁ ua₁ ip₁ now₁ db).2.2,
          (login_body { u with is_first_login := some (firstFlag u) }
            cookie₂ ua₂ ip₂ now₂ (login_body u cookie₁ ua₁ ip₁ now₁ db).2.2).1,
          (login_body { u with is_first_login := some (firstFlag u) }
            cookie₂ ua₂ ip₂ now₂ (login_body u cookie₁ ua₁ ip₁ now₁ db).2.2).2.2,
          ?_, ?_, ?_, ?_⟩
  · rw [login_ok db u email password cookie₁ ua₁ ip₁ now₁ hmail hpw]
    simp only [login_body_eq]
  · simp only [login_body_eq]
    rw [login_ok _ { u with is_first_login := some (firstFlag u) } email
        password cookie₂ ua₂ ip₂ now₂
        (get_user_by_email_after_flip _ db.users u (firstFlag u) email rfl
          hmail')
        hpw]
    simp only [login_body_eq]
  · simp only [login_body_eq]
    simp only [get_current_user]
    rw [get_session_of_sessions_eq _ _ _ db.nextFresh rfl (by
      intro r hr
      obtain ⟨hmem, hneq⟩ := mem_cookieFilter_filter _ _ _ _ hr
      rcases List.mem_append.mp hmem with hL1 | hs1
      · obtain ⟨hdbmem, -⟩ := mem_cookieFilter_filter _ _ _ _ hL1
        have := hfresh r hdbmem
        simp
        omega
      · rw [List.mem_singleton] at hs1
        subst hs1
        exact absurd rfl hneq)]
    rw [if_neg (by simp)]
  · simp only [login_body_eq]
    simp only [get_current_user]
    rw [get_session_of_sessions_eq _ _ _ (db.nextFresh + 1) rfl (by
      intro r hr
      obtain ⟨hmem, hneq⟩ := mem_cookieFilter_filter _ _ _ _ hr
      rcases List.mem_append.mp hmem with hL1 | hs1
      · obtain ⟨hdbmem, -⟩ := mem_cookieFilter_filter _ _ _ _ hL1
        have := hfresh r hdbmem
        simp
        omega
      · rw [List.mem_singleton] at hs1
        subst hs1
        exact absurd rfl hneq)]
    rw [if_pos (by simp)]
    simp only [hnow, if_false]
    rw [get_user_after_two_flips _ db.users u (firstFlag u) false rfl huid']

theorem claim_C8_second_login_supersedes_first_witness :
    ∃ r₁ db₁ r₂ db₂,
      login "user@example.test" "Secret123" none none none 100 exDB
        = .ok (r₁, 100, db₁) ∧
      login "user@example.test" "Secret123" none none none 200 db₁
        = .ok (r₂, 100 + 1, db₂) ∧
      (get_current_user (some 100) 300 db₂).1
        = .error (.http 401 .couldNotValidateCredentials) ∧
      (get_current_user (some (100 + 1)) 300 db₂).1
        = .ok { exUser with is_first_login := some false } :=
  claim_C8_second_login_supersedes_first exDB exUser "user@example.test"
    "Secret123" none none none none none none 100 200 300 (by decide)
    (by decide) (by decide) (by decide) (by decide)

end Vendoor
